import Mathlib

/-!
Verification of the safety-evaluation driver `src/evaluations/safety_eval.py`.

The script is a linear orchestration around two external black-box calls
(adversarial simulator, content-safety evaluation), each invoked twice.
We shallow-embed it in two parts:

* `composedQuery` / `callback` embed the async responder adapter `callback`
  (lines 19-45 of the source) as pure functions, parameterised by the external
  chat function `get_response`.
* `main` embeds the driver `main` (lines 47-184) as a function that produces a
  trace of observable events (prints, simulator invocations, evaluation
  submissions, failure logs).  The behaviour of the external calls — whether
  each one raises — is resolved by an `ExtBehavior` oracle, one flag per call
  site, mirroring the six `try`/`except`-guarded calls in the source.
-/

/-- One message of the OpenAI message protocol: a dict with `content`, `role`
and (for messages produced by this script) a `context` map. -/
structure Message where
  content : String
  role : String
  context : Option (List (String × String)) := none
  deriving DecidableEq, Repr

/-- The conversation envelope handed to `callback` by the simulator: the dict
`messages` of the source, holding the key `"messages"` (a message list) and
the key `"template_parameters"` (a string-keyed dict). -/
structure Envelope where
  messages : List Message
  template_parameters : List (String × String)
  deriving DecidableEq, Repr

/-- The dict returned by the external chat function `get_response`; only its
`"answer"` field is read by the script. -/
structure ChatResponse where
  answer : String
  deriving DecidableEq, Repr

/-- The dict returned by `callback` (lines 41-45). -/
structure CallbackResult (σ : Type) where
  messages : List Message
  stream : Bool
  session_state : σ
  deriving DecidableEq, Repr

/-- Line 24 of the source: `query = messages["messages"][0]["content"]`.
`none` models the `IndexError` raised on an empty message list. -/
def baseQuery (env : Envelope) : Option String :=
  env.messages.head?.map (·.content)

/-- Lines 24-29 of the source: the query after the optional file-content
appending (`if 'file_content' in messages["template_parameters"]:
query += messages["template_parameters"]['file_content']`). -/
def composedQuery (env : Envelope) : Option String :=
  (baseQuery env).map (fun q =>
    match env.template_parameters.lookup "file_content" with
    | some fc => q ++ fc
    | none => q)

/-- The responder adapter `callback` (lines 19-45), parameterised by the
external chat function `get_response`.  It composes the query, calls
`get_response(query, [])`, appends one assistant message with an empty
context map, and passes `stream` and `session_state` through. -/
def callback {σ : Type} (get_response : String → List Message → ChatResponse)
    (env : Envelope) (stream : Bool) (session_state : σ) :
    Option (CallbackResult σ) :=
  (composedQuery env).map (fun q =>
    let response := (get_response q []).answer
    let formatted_response : Message :=
      { content := response, role := "assistant", context := some [] }
    { messages := env.messages ++ [formatted_response]
      stream := stream
      session_state := session_state })

/-- Modelled from the spec: "extract the most recent user query" — the content
of the last message whose role is `"user"`.  Spec-side definition, used only
to compare the spec's wording against what the code computes. -/
def mostRecentUserQuery (env : Envelope) : Option String :=
  ((env.messages.filter (fun m => m.role = "user")).getLast?).map (·.content)

/-- A two-user-turn envelope on which the first message and the most recent
user message differ. -/
def twoTurnEnv : Envelope :=
  { messages := [{ content := "first question", role := "user" },
                 { content := "second question", role := "user" }]
    template_parameters := [] }

/-- C4, counterexample: on a two-user-turn envelope the query the adapter
composes is the content of the FIRST message, not of the most recent user
message. -/
theorem c4_counterexample :
    composedQuery twoTurnEnv ≠ mostRecentUserQuery twoTurnEnv ∧
    composedQuery twoTurnEnv = some "first question" ∧
    mostRecentUserQuery twoTurnEnv = some "second question" := by
  refine ⟨?_, rfl, rfl⟩
  decide

/-- C4 (amended): for every conversation envelope handed to the responder
adapter, the query it composes and sends to the underlying chat function is
the content of the FIRST message in the envelope's message list (before any
optional file-content appending). -/
theorem c4_first_message_query (env : Envelope) (m : Message)
    (h : env.messages.head? = some m) :
    baseQuery env = some m.content ∧
    composedQuery env = some
      (match env.template_parameters.lookup "file_content" with
       | some fc => m.content ++ fc
       | none => m.content) := by
  unfold composedQuery baseQuery
  rw [h]
  cases env.template_parameters.lookup "file_content" <;> simp

/-- C4 witness: the amended theorem at a concrete envelope. -/
theorem c4_first_message_query_witness :
    baseQuery twoTurnEnv = some "first question" ∧
    composedQuery twoTurnEnv = some
      (match twoTurnEnv.template_parameters.lookup "file_content" with
       | some fc => "first question" ++ fc
       | none => "first question") :=
  c4_first_message_query twoTurnEnv
    { content := "first question", role := "user" } rfl

/-- C5: for every envelope whose template parameters lack `file_content`, the
query passed to the chat function is exactly the first message's content, and
the chat function is invoked with an empty history: the adapter's result is
determined by `get_response` applied to that content and `[]`. -/
theorem c5_no_file_content {σ : Type}
    (get_response : String → List Message → ChatResponse)
    (env : Envelope) (stream : Bool) (session_state : σ) (m : Message)
    (hm : env.messages.head? = some m)
    (hfc : env.template_parameters.lookup "file_content" = none) :
    composedQuery env = some m.content ∧
    callback get_response env stream session_state = some
      { messages := env.messages ++
          [{ content := (get_response m.content []).answer
             role := "assistant", context := some [] }]
        stream := stream
        session_state := session_state } := by
  have hq : composedQuery env = some m.content := by
    unfold composedQuery baseQuery
    rw [hm, hfc]
    simp
  refine ⟨hq, ?_⟩
  unfold callback
  rw [hq]
  simp

/-- C5 witness. -/
theorem c5_no_file_content_witness :
    composedQuery twoTurnEnv = some "first question" ∧
    callback (fun q _ => { answer := q ++ "!" }) twoTurnEnv false (0 : Nat) =
      some
      { messages := twoTurnEnv.messages ++
          [{ content := ((fun (q : String) (_ : List Message) =>
                ({ answer := q ++ "!" } : ChatResponse)) "first question" []).answer
             role := "assistant", context := some [] }]
        stream := false
        session_state := 0 } :=
  c5_no_file_content (fun q _ => { answer := q ++ "!" }) twoTurnEnv false 0
    { content := "first question", role := "user" } rfl rfl

/-- An envelope whose template parameters carry a `file_content` field. -/
def fileContentEnv : Envelope :=
  { messages := [{ content := "Summarize: ", role := "user" }]
    template_parameters := [("file_content", "the file body")] }

/-- C6: for every envelope whose template parameters contain `file_content`,
the query passed to the chat function is the first message's content followed
by that file content, in that order, with an empty history. -/
theorem c6_file_content_appended {σ : Type}
    (get_response : String → List Message → ChatResponse)
    (env : Envelope) (stream : Bool) (session_state : σ)
    (m : Message) (fc : String)
    (hm : env.messages.head? = some m)
    (hfc : env.template_parameters.lookup "file_content" = some fc) :
    composedQuery env = some (m.content ++ fc) ∧
    callback get_response env stream session_state = some
      { messages := env.messages ++
          [{ content := (get_response (m.content ++ fc) []).answer
             role := "assistant", context := some [] }]
        stream := stream
        session_state := session_state } := by
  have hq : composedQuery env = some (m.content ++ fc) := by
    unfold composedQuery baseQuery
    rw [hm, hfc]
    simp
  refine ⟨hq, ?_⟩
  unfold callback
  rw [hq]
  simp

/-- C6 witness. -/
theorem c6_file_content_appended_witness :
    composedQuery fileContentEnv = some ("Summarize: " ++ "the file body") ∧
    callback (fun _ _ => { answer := "ok" }) fileContentEnv true (0 : Nat) =
      some
      { messages := fileContentEnv.messages ++
          [{ content := ((fun (_ : String) (_ : List Message) =>
                ({ answer := "ok" } : ChatResponse)) ("Summarize: " ++ "the file body") []).answer
             role := "assistant", context := some [] }]
        stream := true
        session_state := 0 } :=
  c6_file_content_appended (fun _ _ => { answer := "ok" }) fileContentEnv true 0
    { content := "Summarize: ", role := "user" } "the file body" rfl rfl

/-- C7: on every invocation on a nonempty message list, the adapter appends
exactly one assistant-role message, whose content is the chat function's
answer to the composed query and whose context map is empty; it preserves
every pre-existing message unchanged and in order, and returns the `stream`
flag and `session_state` it was given. -/
theorem c7_append_one_assistant {σ : Type}
    (get_response : String → List Message → ChatResponse)
    (env : Envelope) (stream : Bool) (session_state : σ)
    (h : env.messages ≠ []) :
    ∃ q, composedQuery env = some q ∧
      callback get_response env stream session_state = some
        { messages := env.messages ++
            [{ content := (get_response q []).answer
               role := "assistant", context := some [] }]
          stream := stream
          session_state := session_state } := by
  obtain ⟨m, rest, hcons⟩ := List.exists_cons_of_ne_nil h
  have hm : env.messages.head? = some m := by rw [hcons]; rfl
  have hq : ∃ q, composedQuery env = some q := by
    unfold composedQuery baseQuery
    rw [hm]
    cases env.template_parameters.lookup "file_content" <;> simp
  obtain ⟨q, hq⟩ := hq
  refine ⟨q, hq, ?_⟩
  unfold callback
  rw [hq]
  simp

/-- C7 witness. -/
theorem c7_append_one_assistant_witness :
    ∃ q, composedQuery twoTurnEnv = some q ∧
      callback (fun _ _ => { answer := "a" }) twoTurnEnv false (5 : Nat) = some
        { messages := twoTurnEnv.messages ++
            [{ content := ((fun (_ : String) (_ : List Message) =>
                 ({ answer := "a" } : ChatResponse)) q []).answer
               role := "assistant", context := some [] }]
          stream := false
          session_state := 5 } :=
  c7_append_one_assistant (fun _ _ => { answer := "a" }) twoTurnEnv false 5
    (by decide)

/-- The configuration object (`AzureConfig`) read at the top of `main`
(lines 50-60 of the source). -/
structure AzureConfig where
  aoai_endpoint : String
  aoai_api_key : String
  location : String
  subscription_id : String
  resource_group : String
  workspace_name : String

/-- The two values the script ever stores in the `credential` field of the
shared `azure_ai_project` dict: `DefaultAzureCredential()` (line 85) and the
empty string (line 107). -/
inductive Cred where
  | defaultAzureCredential
  | emptyString
  deriving DecidableEq, Repr

/-- The `azure_ai_project` dict (lines 74-78), plus its mutable `credential`
field.  Each event in the trace records the dict's value AT THE TIME of the
corresponding call, which captures the aliasing of the one shared dict. -/
structure ProjectBinding where
  subscription_id : String
  resource_group_name : String
  project_name : String
  credential : Option Cred
  deriving DecidableEq, Repr

/-- Which record set an evaluation submission carries: the baseline
transcripts (`adversarial_conversation_result`) or the jailbreak transcripts
(`adversarial_conversation_result_w_jailbreak`). -/
inductive EvalData where
  | baseline
  | jailbreak
  deriving DecidableEq, Repr

/-- Observable events of one run of `main`, in program order. -/
inductive Event where
  /-- The four configuration `print` calls (lines 62-65). -/
  | printConfig (location subscription_id resource_group project_name : String)
  /-- The invalid-location message (line 70). -/
  | printInvalidLocation (location : String)
  /-- One invocation of the external `AdversarialSimulator` (lines 90-96 and
  140-145), with the arguments passed and the shared project dict as it is
  when the call starts. -/
  | simulate (scenario : String) (maxConversationTurns : Option Nat)
      (maxSimulationResults : Nat) (jailbreak : Bool) (binding : ProjectBinding)
  /-- The post-simulation results `print` (lines 98 and 147). -/
  | printSimResults (jailbreak : Bool)
  /-- The simulation-failure log (lines 100 and 149), marked by which pass
  failed. -/
  | logSimFailure (jailbreak : Bool)
  /-- One `evaluate(...)` submission (lines 108-119, 123-133, 154-165,
  169-179): batch name, record set, the `azure_ai_project` argument (`none`
  when the keyword is omitted, as in the fallback calls) and output path. -/
  | evaluate (name : String) (data : EvalData)
      (binding : Option ProjectBinding) (outputPath : String)
  /-- The first-attempt evaluation warning (lines 121 and 167). -/
  | logEvalWarning (jailbreak : Bool)
  /-- The fatal retried-evaluation log (lines 135 and 181). -/
  | logEvalFatal (jailbreak : Bool)
  /-- The final success message (line 184). -/
  | printSuccess (runPrefix workspace : String)
  deriving DecidableEq, Repr

/-- Oracle resolving whether each of the six `try`-guarded external calls
raises, one flag per call site in source order. -/
structure ExtBehavior where
  baselineSimRaises : Bool
  baselineEval1Raises : Bool
  baselineEval2Raises : Bool
  jbSimRaises : Bool
  jbEval1Raises : Bool
  jbEval2Raises : Bool
  deriving DecidableEq, Repr

/-- Line 67: `valid_locations`. -/
def valid_locations : List String :=
  ["eastus2", "francecentral", "uksouth", "swedencentral"]

/-- Line 103: `prefix = os.getenv("PREFIX", datetime.now().strftime("%y%m%d%H%M%S"))[:14]`.
`prefixEnv` is the value of the `PREFIX` environment variable (if set) and
`now` the formatted current timestamp. -/
def runPrefixOf (prefixEnv : Option String) (now : String) : String :=
  (prefixEnv.getD now).take 14

/-- The driver `main` (lines 47-184), as the trace of events it produces.
External inputs: the configuration, the `PREFIX` environment variable, the
formatted current timestamp, and the behaviour oracle for the six external
calls.  (Named `mainTrace` because Lean reserves `main` for entry points.) -/
def mainTrace (cfg : AzureConfig) (prefixEnv : Option String) (now : String)
    (b : ExtBehavior) : List Event :=
  let pc := Event.printConfig cfg.location cfg.subscription_id
    cfg.resource_group cfg.workspace_name
  if cfg.location ∈ valid_locations then
    -- lines 74-78 and 85: the shared dict, credential installed at startup
    let proj0 : ProjectBinding :=
      { subscription_id := cfg.subscription_id
        resource_group_name := cfg.resource_group
        project_name := cfg.workspace_name
        credential := some Cred.defaultAzureCredential }
    let baseSim := Event.simulate "ADVERSARIAL_QA" (some 1) 10 false proj0
    if b.baselineSimRaises then
      [pc, baseSim, Event.logSimFailure false]
    else
      let rp := runPrefixOf prefixEnv now
      -- line 107: azure_ai_project["credential"] = "" mutates the shared dict
      let proj1 : ProjectBinding := { proj0 with credential := some Cred.emptyString }
      let baseName := rp ++ " Adversarial Tests"
      let e1 := Event.evaluate baseName EvalData.baseline (some proj1) "./adversarial_test.json"
      let e2 := Event.evaluate baseName EvalData.baseline none "./adversarial_test.json"
      let pre := [pc, baseSim, Event.printSimResults false]
      if b.baselineEval1Raises ∧ b.baselineEval2Raises then
        pre ++ [e1, Event.logEvalWarning false, e2, Event.logEvalFatal false]
      else
        let bev := if b.baselineEval1Raises then [e1, Event.logEvalWarning false, e2] else [e1]
        -- the jailbreak simulation reads the same dict, mutated at line 107
        let jbSim := Event.simulate "ADVERSARIAL_QA" none 10 true proj1
        if b.jbSimRaises then
          pre ++ bev ++ [jbSim, Event.logSimFailure true]
        else
          let jbName := rp ++ " Adversarial Tests w/ Jailbreak"
          let j1 := Event.evaluate jbName EvalData.jailbreak (some proj1) "./adversarial_test_w_jailbreak.json"
          let j2 := Event.evaluate jbName EvalData.jailbreak none "./adversarial_test_w_jailbreak.json"
          let mid := pre ++ bev ++ [jbSim, Event.printSimResults true]
          if b.jbEval1Raises ∧ b.jbEval2Raises then
            mid ++ [j1, Event.logEvalWarning true, j2, Event.logEvalFatal true]
          else
            let jev := if b.jbEval1Raises then [j1, Event.logEvalWarning true, j2] else [j1]
            mid ++ jev ++ [Event.printSuccess rp cfg.workspace_name]
  else
    [pc, Event.printInvalidLocation cfg.location]

/-- Is this event a network call (a simulator invocation or an evaluation
submission)? -/
def isNetworkCall : Event → Bool
  | Event.simulate _ _ _ _ _ => true
  | Event.evaluate _ _ _ _ => true
  | _ => false

/-- Is this event a simulator invocation of the given pass? -/
def isSimEvent (jb : Bool) : Event → Bool
  | Event.simulate _ _ _ jb2 _ => jb2 = jb
  | _ => false

/-- Is this event an evaluation submission of the given record set? -/
def isEvalEvent (d : EvalData) : Event → Bool
  | Event.evaluate _ d2 _ _ => d2 = d
  | _ => false

/-- Is this event a fallback evaluation submission (cloud-project binding
omitted) of the given record set? -/
def isFallbackEval (d : EvalData) : Event → Bool
  | Event.evaluate _ d2 none _ => d2 = d
  | _ => false

/-- Is this event the invalid-location message? -/
def isInvalidLocationMsg : Event → Bool
  | Event.printInvalidLocation _ => true
  | _ => false

/-- A sample configuration with an allowed location, for concrete witnesses. -/
def cfgOk : AzureConfig :=
  { aoai_endpoint := "https://aoai.example"
    aoai_api_key := "key"
    location := "uksouth"
    subscription_id := "sub-1"
    resource_group := "rg-1"
    workspace_name := "ws-1" }

/-- A sample configuration with a disallowed location. -/
def cfgBad : AzureConfig := { cfgOk with location := "invalidzone" }

/-- Behaviour oracle: every external call succeeds. -/
def bAllOk : ExtBehavior := ⟨false, false, false, false, false, false⟩

/-- Behaviour oracle: both baseline evaluation attempts raise. -/
def bBaselineEvalFatal : ExtBehavior := ⟨false, true, true, false, false, false⟩

/-- Behaviour oracle: the baseline simulation raises. -/
def bBaselineSimFails : ExtBehavior := ⟨true, false, false, false, false, false⟩

/-- The project dict as installed at startup (lines 74-78 and 85). -/
def startupBinding (cfg : AzureConfig) : ProjectBinding :=
  { subscription_id := cfg.subscription_id
    resource_group_name := cfg.resource_group
    project_name := cfg.workspace_name
    credential := some Cred.defaultAzureCredential }

/-- The project dict after the line-107 overwrite of the credential. -/
def overwrittenBinding (cfg : AzureConfig) : ProjectBinding :=
  { startupBinding cfg with credential := some Cred.emptyString }

/-- C2: with a location outside the allow-list, `main` prints the
invalid-location message and returns at once, making zero network calls; with
a location inside the allow-list the guard does not abort: no invalid-location
message is printed and the baseline simulator invocation takes place. -/
theorem c2_location_guard (cfg : AzureConfig) (prefixEnv : Option String)
    (now : String) (b : ExtBehavior) :
    (cfg.location ∉ valid_locations →
      mainTrace cfg prefixEnv now b =
        [Event.printConfig cfg.location cfg.subscription_id
           cfg.resource_group cfg.workspace_name,
         Event.printInvalidLocation cfg.location] ∧
      (mainTrace cfg prefixEnv now b).filter isNetworkCall = []) ∧
    (cfg.location ∈ valid_locations →
      (mainTrace cfg prefixEnv now b).filter isInvalidLocationMsg = [] ∧
      Event.simulate "ADVERSARIAL_QA" (some 1) 10 false (startupBinding cfg) ∈
        mainTrace cfg prefixEnv now b) := by
  constructor
  · intro h
    constructor
    · simp [mainTrace, h]
    · simp [mainTrace, h, List.filter, isNetworkCall]
  · intro h
    obtain ⟨b1, b2, b3, b4, b5, b6⟩ := b
    constructor <;>
      cases b1 <;> cases b2 <;> cases b3 <;> cases b4 <;> cases b5 <;> cases b6 <;>
        simp [mainTrace, h, List.filter, isInvalidLocationMsg, startupBinding]

/-- C2 witness: both sides of the guard at concrete configurations. -/
theorem c2_location_guard_witness :
    (mainTrace cfgBad none "240101000000" bAllOk =
       [Event.printConfig cfgBad.location cfgBad.subscription_id
          cfgBad.resource_group cfgBad.workspace_name,
        Event.printInvalidLocation cfgBad.location] ∧
     (mainTrace cfgBad none "240101000000" bAllOk).filter isNetworkCall = []) ∧
    ((mainTrace cfgOk none "240101000000" bAllOk).filter isInvalidLocationMsg = [] ∧
     Event.simulate "ADVERSARIAL_QA" (some 1) 10 false (startupBinding cfgOk) ∈
       mainTrace cfgOk none "240101000000" bAllOk) :=
  ⟨(c2_location_guard cfgBad none "240101000000" bAllOk).1 (by decide),
   (c2_location_guard cfgOk none "240101000000" bAllOk).2 (by decide)⟩

/-- C8: the baseline simulator invocation passes the adversarial-QA scenario,
a turn cap of exactly 1 and a session cap of 10 with jailbreak disabled; the
jailbreak invocation (reached when the baseline simulation and at least one
baseline evaluation attempt succeed) passes the same scenario and session cap
with jailbreak enabled and NO turn-cap argument; and every simulator
invocation in any run has exactly this shape. -/
theorem c8_simulator_arguments (cfg : AzureConfig) (prefixEnv : Option String)
    (now : String) (b : ExtBehavior) (hloc : cfg.location ∈ valid_locations) :
    (Event.simulate "ADVERSARIAL_QA" (some 1) 10 false (startupBinding cfg) ∈
       mainTrace cfg prefixEnv now b) ∧
    (¬ b.baselineSimRaises → ¬ (b.baselineEval1Raises ∧ b.baselineEval2Raises) →
       Event.simulate "ADVERSARIAL_QA" none 10 true (overwrittenBinding cfg) ∈
         mainTrace cfg prefixEnv now b) ∧
    (∀ sc mct msr jb p,
       Event.simulate sc mct msr jb p ∈ mainTrace cfg prefixEnv now b →
       sc = "ADVERSARIAL_QA" ∧ msr = 10 ∧
       (jb = false → mct = some 1) ∧ (jb = true → mct = none)) := by
  obtain ⟨b1, b2, b3, b4, b5, b6⟩ := b
  refine ⟨?_, ?_, ?_⟩
  · cases b1 <;> cases b2 <;> cases b3 <;> cases b4 <;> cases b5 <;> cases b6 <;>
      simp [mainTrace, hloc, startupBinding]
  · intro h1 h2
    cases b1 <;> cases b2 <;> cases b3 <;> cases b4 <;> cases b5 <;> cases b6 <;>
      simp_all [mainTrace, hloc, startupBinding, overwrittenBinding]
  · intro sc mct msr jb p hmem
    cases b1 <;> cases b2 <;> cases b3 <;> cases b4 <;> cases b5 <;> cases b6 <;>
      simp [mainTrace, hloc] at hmem <;>
      rcases hmem with h | h <;> simp_all

/-- C8 witness. -/
theorem c8_simulator_arguments_witness :
    (Event.simulate "ADVERSARIAL_QA" (some 1) 10 false (startupBinding cfgOk) ∈
       mainTrace cfgOk none "240101000000" bAllOk) ∧
    (Event.simulate "ADVERSARIAL_QA" none 10 true (overwrittenBinding cfgOk) ∈
       mainTrace cfgOk none "240101000000" bAllOk) :=
  ⟨(c8_simulator_arguments cfgOk none "240101000000" bAllOk (by decide)).1,
   (c8_simulator_arguments cfgOk none "240101000000" bAllOk (by decide)).2.1
     (by decide) (by decide)⟩

/-- C9: the run prefix is the `PREFIX` environment variable when set,
otherwise the formatted timestamp, truncated to at most its first 14
characters; and every evaluation submission in any run is named with exactly
this prefix followed by " Adversarial Tests" for the baseline record set and
" Adversarial Tests w/ Jailbreak" for the jailbreak record set. -/
theorem c9_batch_naming (cfg : AzureConfig) (prefixEnv : Option String)
    (now : String) (b : ExtBehavior) (hloc : cfg.location ∈ valid_locations) :
    (∀ p, prefixEnv = some p → runPrefixOf prefixEnv now = p.take 14) ∧
    (prefixEnv = none → runPrefixOf prefixEnv now = now.take 14) ∧
    (runPrefixOf prefixEnv now).length ≤ 14 ∧
    (∀ name d bind path,
       Event.evaluate name d bind path ∈ mainTrace cfg prefixEnv now b →
       name = runPrefixOf prefixEnv now ++
         (match d with
          | EvalData.baseline => " Adversarial Tests"
          | EvalData.jailbreak => " Adversarial Tests w/ Jailbreak")) := by
  refine ⟨?_, ?_, ?_, ?_⟩
  · intro p hp
    simp [runPrefixOf, hp]
  · intro hp
    simp [runPrefixOf, hp]
  · rw [runPrefixOf, String.take_eq]
    show ((prefixEnv.getD now).1.take 14).length ≤ 14
    rw [List.length_take]
    omega
  · intro name d bind path hmem
    obtain ⟨b1, b2, b3, b4, b5, b6⟩ := b
    cases b1 <;> cases b2 <;> cases b3 <;> cases b4 <;> cases b5 <;> cases b6 <;>
      simp [mainTrace, hloc] at hmem <;>
      cases d <;> (try casesm* _ ∨ _) <;> simp_all

/-- C9 witness. -/
theorem c9_batch_naming_witness :
    runPrefixOf (some "nightly-run-2024-01-01") "240101000000" =
      ("nightly-run-2024-01-01" : String).take 14 ∧
    (runPrefixOf (some "nightly-run-2024-01-01") "240101000000").length ≤ 14 :=
  ⟨(c9_batch_naming cfgOk (some "nightly-run-2024-01-01") "240101000000" bAllOk
      (by decide)).1 "nightly-run-2024-01-01" rfl,
   (c9_batch_naming cfgOk (some "nightly-run-2024-01-01") "240101000000" bAllOk
      (by decide)).2.2.1⟩

/-- C10: before the first baseline evaluation attempt the credential field of
the shared project dict is overwritten with the empty string, and because the
simulator and the project-bound evaluation submissions all reference that one
dict, every simulator invocation and every project-bound evaluation
submission from that point on — the baseline first attempt, the jailbreak
simulation and the jailbreak first attempt — carries the empty-string
credential, while only the baseline simulation carries the default credential
installed at startup. -/
theorem c10_credential_overwrite (cfg : AzureConfig) (prefixEnv : Option String)
    (now : String) (b : ExtBehavior) (hloc : cfg.location ∈ valid_locations) :
    (∀ sc mct msr p,
       Event.simulate sc mct msr false p ∈ mainTrace cfg prefixEnv now b →
       p.credential = some Cred.defaultAzureCredential) ∧
    (∀ sc mct msr p,
       Event.simulate sc mct msr true p ∈ mainTrace cfg prefixEnv now b →
       p.credential = some Cred.emptyString) ∧
    (∀ name d p path,
       Event.evaluate name d (some p) path ∈ mainTrace cfg prefixEnv now b →
       p.credential = some Cred.emptyString) := by
  obtain ⟨b1, b2, b3, b4, b5, b6⟩ := b
  refine ⟨?_, ?_, ?_⟩
  · intro sc mct msr p hmem
    cases b1 <;> cases b2 <;> cases b3 <;> cases b4 <;> cases b5 <;> cases b6 <;>
      simp [mainTrace, hloc] at hmem <;> simp_all
  · intro sc mct msr p hmem
    cases b1 <;> cases b2 <;> cases b3 <;> cases b4 <;> cases b5 <;> cases b6 <;>
      simp [mainTrace, hloc] at hmem <;> simp_all
  · intro name d p path hmem
    cases b1 <;> cases b2 <;> cases b3 <;> cases b4 <;> cases b5 <;> cases b6 <;>
      simp [mainTrace, hloc] at hmem <;> (try casesm* _ ∨ _) <;> simp_all

/-- C10 witness: in a fully successful run, the jailbreak simulation runs
with the overwritten empty-string credential. -/
theorem c10_credential_overwrite_witness :
    (overwrittenBinding cfgOk).credential = some Cred.emptyString ∧
    Event.simulate "ADVERSARIAL_QA" none 10 true (overwrittenBinding cfgOk) ∈
      mainTrace cfgOk none "240101000000" bAllOk :=
  ⟨(c10_credential_overwrite cfgOk none "240101000000" bAllOk (by decide)).2.1
      "ADVERSARIAL_QA" none 10 (overwrittenBinding cfgOk) (by decide),
   by decide⟩

/-- Is this event the final success message? -/
def isSuccessMsg : Event → Bool
  | Event.printSuccess _ _ => true
  | _ => false

/-- C1: per evaluation phase, if the first submission raises, exactly one
fallback submission of the same record set is made with the cloud-project
binding removed (same batch name, same output path, no binding); if the first
submission succeeds no fallback is made; and when the fallback also raises no
further phase runs — a fatal baseline evaluation means the jailbreak
simulation and jailbreak evaluation are never attempted, and a fatal
jailbreak evaluation means the run ends without the success message. -/
theorem c1_eval_fallback (cfg : AzureConfig) (prefixEnv : Option String)
    (now : String) (b : ExtBehavior)
    (hloc : cfg.location ∈ valid_locations) (hsim : ¬ b.baselineSimRaises) :
    (b.baselineEval1Raises →
       ((mainTrace cfg prefixEnv now b).filter
          (isFallbackEval EvalData.baseline)).length = 1 ∧
       Event.evaluate (runPrefixOf prefixEnv now ++ " Adversarial Tests")
           EvalData.baseline none "./adversarial_test.json" ∈
         mainTrace cfg prefixEnv now b ∧
       (b.baselineEval2Raises →
          (mainTrace cfg prefixEnv now b).filter (isSimEvent true) = [] ∧
          (mainTrace cfg prefixEnv now b).filter
            (isEvalEvent EvalData.jailbreak) = [] ∧
          (mainTrace cfg prefixEnv now b).filter isSuccessMsg = [])) ∧
    (¬ b.baselineEval1Raises →
       (mainTrace cfg prefixEnv now b).filter
         (isFallbackEval EvalData.baseline) = []) ∧
    (¬ (b.baselineEval1Raises ∧ b.baselineEval2Raises) → ¬ b.jbSimRaises →
       (b.jbEval1Raises →
          ((mainTrace cfg prefixEnv now b).filter
             (isFallbackEval EvalData.jailbreak)).length = 1 ∧
          Event.evaluate
              (runPrefixOf prefixEnv now ++ " Adversarial Tests w/ Jailbreak")
              EvalData.jailbreak none "./adversarial_test_w_jailbreak.json" ∈
            mainTrace cfg prefixEnv now b ∧
          (b.jbEval2Raises →
             (mainTrace cfg prefixEnv now b).filter isSuccessMsg = [])) ∧
       (¬ b.jbEval1Raises →
          (mainTrace cfg prefixEnv now b).filter
            (isFallbackEval EvalData.jailbreak) = [])) := by
  obtain ⟨b1, b2, b3, b4, b5, b6⟩ := b
  cases b1 <;> cases b2 <;> cases b3 <;> cases b4 <;> cases b5 <;> cases b6 <;>
    simp_all [mainTrace, hloc, List.filter, isFallbackEval, isSimEvent,
      isEvalEvent, isSuccessMsg]

/-- C1 witness: the baseline phase with both attempts raising, at a concrete
configuration. -/
theorem c1_eval_fallback_witness :
    ((mainTrace cfgOk none "240101000000" bBaselineEvalFatal).filter
       (isFallbackEval EvalData.baseline)).length = 1 ∧
    Event.evaluate (runPrefixOf none "240101000000" ++ " Adversarial Tests")
        EvalData.baseline none "./adversarial_test.json" ∈
      mainTrace cfgOk none "240101000000" bBaselineEvalFatal ∧
    (bBaselineEvalFatal.baselineEval2Raises →
       (mainTrace cfgOk none "240101000000" bBaselineEvalFatal).filter
         (isSimEvent true) = [] ∧
       (mainTrace cfgOk none "240101000000" bBaselineEvalFatal).filter
         (isEvalEvent EvalData.jailbreak) = [] ∧
       (mainTrace cfgOk none "240101000000" bBaselineEvalFatal).filter
         isSuccessMsg = []) :=
  (c1_eval_fallback cfgOk none "240101000000" bBaselineEvalFatal
    (by decide) (by decide)).1 (by decide)

/-- C3: a baseline-simulation failure ends the run at once with the
non-jailbreak failure log and no evaluation submission of either record set;
a jailbreak-simulation failure (after a successful baseline phase) produces
the jailbreak-marked failure log, no jailbreak evaluation and no success
message, while the baseline evaluation submissions already made remain in the
trace. -/
theorem c3_sim_failure (cfg : AzureConfig) (prefixEnv : Option String)
    (now : String) (b : ExtBehavior) (hloc : cfg.location ∈ valid_locations) :
    (b.baselineSimRaises →
       mainTrace cfg prefixEnv now b =
         [Event.printConfig cfg.location cfg.subscription_id
            cfg.resource_group cfg.workspace_name,
          Event.simulate "ADVERSARIAL_QA" (some 1) 10 false (startupBinding cfg),
          Event.logSimFailure false] ∧
       (mainTrace cfg prefixEnv now b).filter
         (fun e => isEvalEvent EvalData.baseline e ||
           isEvalEvent EvalData.jailbreak e) = []) ∧
    (¬ b.baselineSimRaises → ¬ (b.baselineEval1Raises ∧ b.baselineEval2Raises) →
       b.jbSimRaises →
       Event.logSimFailure true ∈ mainTrace cfg prefixEnv now b ∧
       (mainTrace cfg prefixEnv now b).filter
         (isEvalEvent EvalData.jailbreak) = [] ∧
       1 ≤ ((mainTrace cfg prefixEnv now b).filter
         (isEvalEvent EvalData.baseline)).length ∧
       (mainTrace cfg prefixEnv now b).filter isSuccessMsg = []) := by
  obtain ⟨b1, b2, b3, b4, b5, b6⟩ := b
  cases b1 <;> cases b2 <;> cases b3 <;> cases b4 <;> cases b5 <;> cases b6 <;>
    simp_all [mainTrace, hloc, List.filter, isEvalEvent, isSuccessMsg,
      startupBinding]

/-- C3 witness: the baseline simulation raising, at a concrete
configuration. -/
theorem c3_sim_failure_witness :
    mainTrace cfgOk none "240101000000" bBaselineSimFails =
      [Event.printConfig cfgOk.location cfgOk.subscription_id
         cfgOk.resource_group cfgOk.workspace_name,
       Event.simulate "ADVERSARIAL_QA" (some 1) 10 false (startupBinding cfgOk),
       Event.logSimFailure false] ∧
    (mainTrace cfgOk none "240101000000" bBaselineSimFails).filter
      (fun e => isEvalEvent EvalData.baseline e ||
        isEvalEvent EvalData.jailbreak e) = [] :=
  (c3_sim_failure cfgOk none "240101000000" bBaselineSimFails
    (by decide)).1 (by decide)
